import Mathlib

/-!
# BlueConnect Go — verification of the frame decoder and derived-metric pipeline

Shallow embedding of custom_components/blueconnect/BlueConnectGo/parser.py
(class BlueConnectGoBluetoothDeviceData) and const.py.

Modelling conventions:
* Python floats are modelled as exact rationals; all the decimal literals
  of the source (7.2, 0.256, 273.15, 35.45, ...) are exact in ℚ.
* The single transcendental operation of the source, 10 ** x at line 168,
  is abstracted as an explicit function parameter pow10 : ℚ → ℚ; theorems
  that depend on its value only use the bound 10^x ∈ [10⁻⁶, 1] for
  x ∈ [−6, 0], stated as a hypothesis.  Likewise math.log(10) (line 148)
  is a parameter log10 : ℚ.
* The device.sensors dict is an association list; assignment prepends and
  lookup takes the first match, which is observationally the dict update
  (each key is written at most once per notification).
* bytearray slicing data[i:j] is take/drop (Python slices clamp at the
  end of the sequence exactly as take/drop do), and int.from_bytes with
  byteorder little is bytesToNat.
* Python round(x, n) rounds half to even; rhe below is that rounding.
-/

/-- Little-endian interpretation of a byte list, int.from_bytes(_, "little"). -/
def bytesToNat : List ℕ → ℕ
  | [] => 0
  | b :: rest => b + 256 * bytesToNat rest

/-- data[i:i+2] interpreted little-endian: the raw 16-bit field at offset i. -/
def le16 (data : List ℕ) (i : ℕ) : ℕ :=
  bytesToNat ((data.drop i).take 2)

/-- Round half to even to an integer (the tie-breaking rule of Python round). -/
def rhe (x : ℚ) : ℤ :=
  let f := ⌊x⌋
  let r := x - f
  if r < 1/2 then f
  else if 1/2 < r then f + 1
  else if f % 2 = 0 then f else f + 1

/-- Python round(x, n): round half to even at n decimal digits. -/
def pyround (n : ℕ) (x : ℚ) : ℚ :=
  (rhe (x * 10 ^ n) : ℚ) / 10 ^ n

/-- Arithmetic mean of a list, sum(l) / len(l). -/
def listMean (l : List ℚ) : ℚ :=
  l.sum / (l.length : ℚ)

/-- history.append(x) followed by history.pop(0) when len(history) > cap
(parser.py lines 127-129 and 195-197). -/
def pushCap (cap : ℕ) (h : List ℚ) (x : ℚ) : List ℚ :=
  let h1 := h ++ [x]
  if cap < h1.length then h1.tail else h1

/-- A sensors-dict entry value: some q is a number, none is Python None. -/
abbrev SensorVal := Option ℚ

/-- Dict assignment d[k] = v, modelled observationally: prepend; reads use
the first match. -/
def dictSet (s : List (String × SensorVal)) (k : String) (v : SensorVal) :
    List (String × SensorVal) :=
  (k, v) :: s

/-- Dict read: first matching key, none when the key is absent. -/
def sget (s : List (String × SensorVal)) (k : String) : Option SensorVal :=
  match s with
  | [] => none
  | (k', v) :: rest => if k' = k then some v else sget rest k

/-- dataclass BlueConnectGoDevice (parser.py lines 23-36). -/
structure BlueConnectGoDevice where
  hw_version : String := ""
  sw_version : String := ""
  name : String := ""
  identifier : String := ""
  address : String := ""
  sensors : List (String × SensorVal) := []
  chlorine_history : List ℚ := []
  salt_history : List ℚ := []

/-- A freshly constructed BlueConnectGoDevice(). -/
def devFresh : BlueConnectGoDevice := {}

/-- self._max_history_len (parser.py line 54). -/
def max_history_len : ℕ := 3

/-- NOTIFY_TIMEOUT from const.py: seconds to wait for the notification. -/
def NOTIFY_TIMEOUT : ℕ := 15

/-- The clamped log10 HOCl concentration (parser.py lines 146-167): Nernst
slope, ORP reference, log estimate, clamped between -6 and 0. -/
def log_chlorine_clamped (log10 : ℚ)
    (actual_temp actual_ph actual_orp : ℚ) : ℚ :=
  let temp_K := actual_temp + 273.15
  let nernst_slope := (8.314 * temp_K) / (96485 * log10) * 1000
  let orp_ref := 700 - (actual_ph - 7.0) * nernst_slope
  let orp_diff := actual_orp - orp_ref
  max (-6) (min (orp_diff / nernst_slope) 0)

/-- The chlorine estimate chlorine_ppm before the range check
(parser.py lines 146-180): 10 ** clamped log, molar mass scaling, then the
salinity factor when a smoothed salt value exists (it exists exactly when
raw_ec ≠ 0). -/
def chlorinePpm (pow10 : ℚ → ℚ) (log10 : ℚ)
    (actual_temp actual_ph actual_orp : ℚ) (smooth_salt : Option ℚ) : ℚ :=
  let chlorine_mol_L := pow10 (log_chlorine_clamped log10 actual_temp actual_ph actual_orp)
  let ppm := chlorine_mol_L * 35.45 * 1000
  match smooth_salt with
  | some ss => ppm * max 0.7 (1.0 - ss / 50000.0)
  | none => ppm

/-- The sanity range check on chlorine_ppm (parser.py lines 183-188):
above 5 the reading is discarded (None), below 0 it is clamped to 0.0,
otherwise rounded to 3 decimals. -/
def chlorineRangeCheck (x : ℚ) : SensorVal :=
  if x > 5 then none
  else if x < 0 then some 0
  else some (pyround 3 x)

/-- _receive_status (parser.py lines 77-222): decodes the notification
payload into device.sensors and updates the two history lists.  The
try/except around the chlorine computation is not modelled because no
statement of its body can raise in the rational model (the divisor
nernst_slope involves only nonzero constants and temp_K ≥ 273.15; ℚ
division is total anyway). -/
def receive_status (pow10 : ℚ → ℚ) (log10 : ℚ)
    (device : BlueConnectGoDevice) (data : List ℕ) : BlueConnectGoDevice :=
  -- Temperature
  let raw_temp := le16 data 1
  let actual_temp : ℚ := (raw_temp : ℚ) / 100.0
  let s1 := dictSet device.sensors "temperature" (some actual_temp)
  -- pH
  let raw_ph := le16 data 3
  let actual_ph : ℚ := ((2048 : ℚ) - (raw_ph : ℚ)) / 232.0 + 7.2
  let s2 := dictSet s1 "pH" (some actual_ph)
  -- ORP
  let raw_orp := le16 data 5
  let actual_orp : ℚ := (raw_orp : ℚ) / 4.0 - 5.0
  let s3 := dictSet s2 "ORP" (some actual_orp)
  -- Electrical Conductivity and Salt
  let raw_ec := le16 data 7
  let salt_ppm : ℚ := (raw_ec : ℚ) * 0.256
  let salt_history' :=
    if raw_ec ≠ 0 then pushCap (max_history_len * 2) device.salt_history salt_ppm
    else device.salt_history
  let smooth_salt : Option ℚ :=
    if raw_ec ≠ 0 then some (listMean salt_history') else none
  let s4 :=
    if raw_ec ≠ 0 then
      dictSet (dictSet (dictSet (dictSet s3
        "salt_raw" (some (pyround 1 salt_ppm)))
        "salt" (some (pyround 2 (listMean salt_history'))))
        "salt_grams" (some (pyround 1 (listMean salt_history' / 1000))))
        "EC" (some (raw_ec : ℚ))
    else
      dictSet (dictSet (dictSet (dictSet s3
        "EC" none) "salt" none) "salt_raw" none) "salt_grams" none
  -- Free chlorine
  let ppm := chlorinePpm pow10 log10 actual_temp actual_ph actual_orp smooth_salt
  let chlorine_raw := chlorineRangeCheck ppm
  let s5 := dictSet s4 "chlorine_raw" chlorine_raw
  let chlorine_history' :=
    match chlorine_raw with
    | some v => pushCap max_history_len device.chlorine_history v
    | none => device.chlorine_history
  let chlorine_smoothed : SensorVal :=
    if chlorine_history' = [] then none
    else some (pyround 3 (listMean chlorine_history'))
  let s6 := dictSet s5 "chlorine" chlorine_smoothed
  -- Battery
  let raw_batt := le16 data 9
  let s7 := dictSet s6 "battery_voltage" (some (raw_batt : ℚ))
  let batt_percent : ℚ := ((raw_batt : ℚ) - 2800) / ((3640 : ℚ) - 2800) * 100.0
  let s8 := dictSet s7 "battery" (some (pyround 1 (max 0 (min batt_percent 100))))
  { device with
      sensors := s8
      salt_history := salt_history'
      chlorine_history := chlorine_history' }

/-- The chlorine_ppm value computed inside receive_status, as a function of
the raw payload and the incoming device state. -/
def chlorinePpmOf (pow10 : ℚ → ℚ) (log10 : ℚ)
    (device : BlueConnectGoDevice) (data : List ℕ) : ℚ :=
  chlorinePpm pow10 log10
    ((le16 data 1 : ℚ) / 100.0)
    (((2048 : ℚ) - (le16 data 3 : ℚ)) / 232.0 + 7.2)
    ((le16 data 5 : ℚ) / 4.0 - 5.0)
    (if le16 data 7 ≠ 0 then
      some (listMean (pushCap (max_history_len * 2) device.salt_history
        ((le16 data 7 : ℚ) * 0.256)))
     else none)

/-- update_device (parser.py lines 224-245): constructs a fresh
BlueConnectGoDevice, sets name and address from the BLE device, and unless
skip_query runs the status exchange.  The notification either arrives with
a payload before the 15-second timeout (some data) or never arrives
(none); in the latter case no sensor field is written. -/
def update_device (pow10 : ℚ → ℚ) (log10 : ℚ) (address : String)
    (skip_query : Bool) (notification : Option (List ℕ)) :
    BlueConnectGoDevice :=
  let device : BlueConnectGoDevice := { name := address, address := address }
  if skip_query then device
  else
    match notification with
    | some data => receive_status pow10 log10 device data
    | none => device

/-- The transport-level primitives invoked during one update cycle. -/
inductive TransportAction where
  | connect
  | startNotify
  | writeChar
  | disconnect
deriving DecidableEq, Repr

/-- Outcome of the bounded wait in _get_status: the notification arrived
before NOTIFY_TIMEOUT, or the wait timed out. -/
inductive NotifyOutcome where
  | completed
  | timedOut
deriving DecidableEq, Repr

/-- Transport actions performed by _get_status (parser.py lines 56-75):
start_notify, write_gatt_char, then the bounded wait.  The TimeoutError of
the timed-out wait is caught at line 71, so both outcomes fall through to
the same return. -/
def get_status_trace : NotifyOutcome → List TransportAction
  | .completed => [.startNotify, .writeChar]
  | .timedOut => [.startNotify, .writeChar]

/-- Transport actions performed by update_device (parser.py lines 236-243):
nothing when skip_query, otherwise establish_connection, the _get_status
exchange, then disconnect. -/
def update_device_trace (skip_query : Bool) (o : NotifyOutcome) :
    List TransportAction :=
  if skip_query then []
  else [TransportAction.connect] ++ get_status_trace o ++ [TransportAction.disconnect]

-- Concrete stand-ins for the two abstracted real-valued parameters, used
-- only in closed instantiations whose conclusions do not depend on them.
def pow10c : ℚ → ℚ := fun _ => 1
def log10c : ℚ := 2.302585092994046

/-! ## Helper lemmas -/

/-- A field whose byte range lies wholly beyond the payload reads as raw 0. -/
lemma le16_of_length_le (data : List ℕ) (i : ℕ) (h : data.length ≤ i) :
    le16 data i = 0 := by
  unfold le16
  rw [List.drop_eq_nil_of_le h]
  rfl

lemma intCast_le_rhe (n : ℤ) (x : ℚ) (h : (n : ℚ) ≤ x) : n ≤ rhe x := by
  have hf : n ≤ ⌊x⌋ := Int.le_floor.mpr h
  simp only [rhe]
  split_ifs <;> omega

lemma rhe_le_intCast (n : ℤ) (x : ℚ) (h : x ≤ (n : ℚ)) : rhe x ≤ n := by
  have hf : ⌊x⌋ ≤ n := by
    have := Int.floor_mono h
    simpa using this
  simp only [rhe]
  split_ifs with h1 h2 h3
  · exact hf
  · have hx : (⌊x⌋ : ℚ) + 1/2 < x := by linarith
    have : (⌊x⌋ : ℚ) < (n : ℚ) := by linarith
    have : ⌊x⌋ < n := by exact_mod_cast this
    omega
  · exact hf
  · have hx : (⌊x⌋ : ℚ) + 1/2 ≤ x := by linarith
    have : (⌊x⌋ : ℚ) < (n : ℚ) := by linarith
    have : ⌊x⌋ < n := by exact_mod_cast this
    omega

lemma pyround_le (n : ℕ) (m : ℤ) (x : ℚ) (h : x * 10 ^ n ≤ (m : ℚ)) :
    pyround n x ≤ (m : ℚ) / 10 ^ n := by
  unfold pyround
  have := rhe_le_intCast m (x * 10 ^ n) h
  have h10 : (0 : ℚ) < 10 ^ n := by positivity
  apply div_le_div_of_nonneg_right _ h10.le
  exact_mod_cast this

lemma le_pyround (n : ℕ) (m : ℤ) (x : ℚ) (h : (m : ℚ) ≤ x * 10 ^ n) :
    (m : ℚ) / 10 ^ n ≤ pyround n x := by
  unfold pyround
  have := intCast_le_rhe m (x * 10 ^ n) h
  have h10 : (0 : ℚ) < 10 ^ n := by positivity
  apply div_le_div_of_nonneg_right _ h10.le
  exact_mod_cast this

/-- Reading the battery key of the resulting sensors dict. -/
lemma rs_battery (p : ℚ → ℚ) (l : ℚ) (dev : BlueConnectGoDevice) (data : List ℕ) :
    sget (receive_status p l dev data).sensors "battery"
      = some (some (pyround 1 (max 0
          (min (((le16 data 9 : ℚ) - 2800) / ((3640 : ℚ) - 2800) * 100.0) 100)))) := by
  simp [receive_status, dictSet, sget]

lemma rs_battery_voltage (p : ℚ → ℚ) (l : ℚ) (dev : BlueConnectGoDevice)
    (data : List ℕ) :
    sget (receive_status p l dev data).sensors "battery_voltage"
      = some (some (le16 data 9 : ℚ)) := by
  simp [receive_status, dictSet, sget]

lemma rs_chlorine_raw (p : ℚ → ℚ) (l : ℚ) (dev : BlueConnectGoDevice)
    (data : List ℕ) :
    sget (receive_status p l dev data).sensors "chlorine_raw"
      = some (chlorineRangeCheck (chlorinePpmOf p l dev data)) := by
  by_cases hec : le16 data 7 = 0 <;>
    simp [receive_status, dictSet, sget, chlorinePpmOf, hec]

lemma rs_temperature (p : ℚ → ℚ) (l : ℚ) (dev : BlueConnectGoDevice)
    (data : List ℕ) :
    sget (receive_status p l dev data).sensors "temperature"
      = some (some ((le16 data 1 : ℚ) / 100.0)) := by
  by_cases hec : le16 data 7 = 0 <;>
    simp [receive_status, dictSet, sget, hec]

lemma rs_pH (p : ℚ → ℚ) (l : ℚ) (dev : BlueConnectGoDevice) (data : List ℕ) :
    sget (receive_status p l dev data).sensors "pH"
      = some (some (((2048 : ℚ) - (le16 data 3 : ℚ)) / 232.0 + 7.2)) := by
  by_cases hec : le16 data 7 = 0 <;>
    simp [receive_status, dictSet, sget, hec]

lemma rs_ORP (p : ℚ → ℚ) (l : ℚ) (dev : BlueConnectGoDevice) (data : List ℕ) :
    sget (receive_status p l dev data).sensors "ORP"
      = some (some ((le16 data 5 : ℚ) / 4.0 - 5.0)) := by
  by_cases hec : le16 data 7 = 0 <;>
    simp [receive_status, dictSet, sget, hec]

lemma rs_EC (p : ℚ → ℚ) (l : ℚ) (dev : BlueConnectGoDevice) (data : List ℕ) :
    sget (receive_status p l dev data).sensors "EC"
      = some (if le16 data 7 = 0 then none else some (le16 data 7 : ℚ)) := by
  by_cases hec : le16 data 7 = 0 <;>
    simp [receive_status, dictSet, sget, hec]

lemma rs_salt_raw (p : ℚ → ℚ) (l : ℚ) (dev : BlueConnectGoDevice) (data : List ℕ) :
    sget (receive_status p l dev data).sensors "salt_raw"
      = some (if le16 data 7 = 0 then none
          else some (pyround 1 ((le16 data 7 : ℚ) * 0.256))) := by
  by_cases hec : le16 data 7 = 0 <;>
    simp [receive_status, dictSet, sget, hec]

lemma rs_salt (p : ℚ → ℚ) (l : ℚ) (dev : BlueConnectGoDevice) (data : List ℕ) :
    sget (receive_status p l dev data).sensors "salt"
      = some (if le16 data 7 = 0 then none
          else some (pyround 2 (listMean (pushCap (max_history_len * 2)
            dev.salt_history ((le16 data 7 : ℚ) * 0.256))))) := by
  by_cases hec : le16 data 7 = 0 <;>
    simp [receive_status, dictSet, sget, hec]

lemma rs_salt_grams (p : ℚ → ℚ) (l : ℚ) (dev : BlueConnectGoDevice)
    (data : List ℕ) :
    sget (receive_status p l dev data).sensors "salt_grams"
      = some (if le16 data 7 = 0 then none
          else some (pyround 1 (listMean (pushCap (max_history_len * 2)
            dev.salt_history ((le16 data 7 : ℚ) * 0.256)) / 1000))) := by
  by_cases hec : le16 data 7 = 0 <;>
    simp [receive_status, dictSet, sget, hec]

lemma rs_chlorine_isSome (p : ℚ → ℚ) (l : ℚ) (dev : BlueConnectGoDevice)
    (data : List ℕ) :
    (sget (receive_status p l dev data).sensors "chlorine").isSome = true := by
  by_cases hec : le16 data 7 = 0 <;>
    simp [receive_status, dictSet, sget, hec]

lemma rs_salt_history (p : ℚ → ℚ) (l : ℚ) (dev : BlueConnectGoDevice)
    (data : List ℕ) :
    (receive_status p l dev data).salt_history
      = if le16 data 7 = 0 then dev.salt_history
        else pushCap (max_history_len * 2) dev.salt_history
          ((le16 data 7 : ℚ) * 0.256) := by
  by_cases hec : le16 data 7 = 0 <;> simp [receive_status, hec]

/-! ## Concrete frames used in closed instantiations -/

/-- The end-to-end scenario A frame of the spec. -/
def frameA : List ℕ :=
  [0x00, 0xE8, 0x03, 0x00, 0x08, 0xC8, 0x00, 0x10, 0x27, 0xA0, 0x0C, 0x00, 0x00]

/-- An 11-byte frame whose only nonzero field is raw_ec = 1. -/
def frameEc1 : List ℕ := [0, 0, 0, 0, 0, 0, 0, 1, 0, 0, 0]

/-- An 11-byte frame whose only nonzero field is raw_ec = 1000. -/
def frameEc1000 : List ℕ := [0, 0, 0, 0, 0, 0, 0, 0xE8, 0x03, 0, 0]

/-- An 11-byte frame whose only nonzero field is the battery voltage,
given here as the two little-endian bytes. -/
def frameBatt (b0 b1 : ℕ) : List ℕ := [0, 0, 0, 0, 0, 0, 0, 0, 0, b0, b1]

/-! ## More helper lemmas -/

lemma pushCap_length_le (cap : ℕ) (h : List ℚ) (x : ℚ)
    (hl : h.length ≤ cap) : (pushCap cap h x).length ≤ cap := by
  simp only [pushCap]
  split_ifs with hc <;> simp_all

/-- All eleven sensor keys are written on every run of the handler. -/
lemma rs_all_keys_present (p : ℚ → ℚ) (l : ℚ) (dev : BlueConnectGoDevice)
    (data : List ℕ) :
    (sget (receive_status p l dev data).sensors "temperature").isSome = true ∧
    (sget (receive_status p l dev data).sensors "pH").isSome = true ∧
    (sget (receive_status p l dev data).sensors "ORP").isSome = true ∧
    (sget (receive_status p l dev data).sensors "EC").isSome = true ∧
    (sget (receive_status p l dev data).sensors "salt").isSome = true ∧
    (sget (receive_status p l dev data).sensors "salt_raw").isSome = true ∧
    (sget (receive_status p l dev data).sensors "salt_grams").isSome = true ∧
    (sget (receive_status p l dev data).sensors "battery").isSome = true ∧
    (sget (receive_status p l dev data).sensors "battery_voltage").isSome = true ∧
    (sget (receive_status p l dev data).sensors "chlorine").isSome = true ∧
    (sget (receive_status p l dev data).sensors "chlorine_raw").isSome = true := by
  by_cases hec : le16 data 7 = 0 <;>
    simp [receive_status, dictSet, sget, hec]

/-- On a payload of at most one byte every raw field reads 0, so the
temperature and battery voltage decode to 0 and EC is the None marker. -/
lemma rs_short_zero (p : ℚ → ℚ) (l : ℚ) (dev : BlueConnectGoDevice)
    (data : List ℕ) (h : data.length ≤ 1) :
    sget (receive_status p l dev data).sensors "temperature" = some (some 0) ∧
    sget (receive_status p l dev data).sensors "battery_voltage" = some (some 0) ∧
    sget (receive_status p l dev data).sensors "EC" = some none := by
  have h1 : le16 data 1 = 0 := le16_of_length_le _ _ (by omega)
  have h7 : le16 data 7 = 0 := le16_of_length_le _ _ (by omega)
  have h9 : le16 data 9 = 0 := le16_of_length_le _ _ (by omega)
  refine ⟨?_, ?_, ?_⟩
  · rw [rs_temperature, h1]; norm_num
  · rw [rs_battery_voltage, h9]; norm_num
  · rw [rs_EC, h7]; simp

lemma log_chlorine_clamped_mem (l t ph orp : ℚ) :
    -6 ≤ log_chlorine_clamped l t ph orp ∧ log_chlorine_clamped l t ph orp ≤ 0 := by
  constructor
  · simp only [log_chlorine_clamped]
    exact le_max_left _ _
  · simp only [log_chlorine_clamped]
    exact max_le (by norm_num) (min_le_right _ _)

/-- Under the real bound 10 ^ x ∈ [10⁻⁶, 1] for x ∈ [-6, 0], the computed
chlorine_ppm is at least 0.7 × 35.45 × 1000 × 10⁻⁶ = 0.024815. -/
lemma chlorinePpm_lower (p : ℚ → ℚ) (l t ph orp : ℚ) (ss : Option ℚ)
    (hp : ∀ x : ℚ, -6 ≤ x → x ≤ 0 → 1/1000000 ≤ p x ∧ p x ≤ 1) :
    4963/200000 ≤ chlorinePpm p l t ph orp ss := by
  obtain ⟨h6, h0⟩ := log_chlorine_clamped_mem l t ph orp
  obtain ⟨hm, -⟩ := hp _ h6 h0
  rcases ss with _ | s
  · simp only [chlorinePpm]
    nlinarith
  · simp only [chlorinePpm]
    have hf : (7 : ℚ)/10 ≤ max 0.7 (1.0 - s / 50000.0) := by
      calc (7 : ℚ)/10 = 0.7 := by norm_num
        _ ≤ max 0.7 (1.0 - s / 50000.0) := le_max_left _ _
    have hb : (3545 : ℚ)/100000 ≤ p (log_chlorine_clamped l t ph orp) * 35.45 * 1000 := by
      nlinarith
    have hbn : (0 : ℚ) ≤ p (log_chlorine_clamped l t ph orp) * 35.45 * 1000 := by
      nlinarith
    have := mul_le_mul hb hf (by norm_num) hbn
    nlinarith

/-! ## Claim theorems -/

/-- C1 (counterexample): the empty payload is shorter than 11 usable bytes,
yet the handler does not fail: it populates the temperature and battery
fields of the snapshot (the source has no MalformedFrame error and no
length check; raw fields whose bytes are missing read as 0). -/
theorem blueconnect_c1_short_frame_decodes :
    ([] : List ℕ).length < 11 ∧
    sget (receive_status pow10c log10c devFresh []).sensors "temperature"
      = some (some 0) ∧
    sget (receive_status pow10c log10c devFresh []).sensors "battery"
      = some (some 0) := by
  refine ⟨by decide, ?_, ?_⟩ <;>
    norm_num +decide [receive_status, dictSet, sget, le16, bytesToNat,
      chlorineRangeCheck, chlorinePpm, log_chlorine_clamped, listMean, pushCap,
      max_history_len, pow10c, log10c, pyround, rhe, devFresh]

/-- C1 (amended): for every notification payload shorter than 11 usable
bytes, the frame decoder does not fail: it completes, leaves every sensor
key of the snapshot populated, and decodes fields whose bytes are entirely
missing as if the raw value were 0 (so the cycle ends with sensor data
present rather than none). -/
theorem blueconnect_c1_short_payload_total (p : ℚ → ℚ) (l : ℚ)
    (dev : BlueConnectGoDevice) (data : List ℕ) (_h : data.length < 11) :
    ((sget (receive_status p l dev data).sensors "temperature").isSome = true ∧
     (sget (receive_status p l dev data).sensors "pH").isSome = true ∧
     (sget (receive_status p l dev data).sensors "ORP").isSome = true ∧
     (sget (receive_status p l dev data).sensors "EC").isSome = true ∧
     (sget (receive_status p l dev data).sensors "salt").isSome = true ∧
     (sget (receive_status p l dev data).sensors "salt_raw").isSome = true ∧
     (sget (receive_status p l dev data).sensors "salt_grams").isSome = true ∧
     (sget (receive_status p l dev data).sensors "battery").isSome = true ∧
     (sget (receive_status p l dev data).sensors "battery_voltage").isSome = true ∧
     (sget (receive_status p l dev data).sensors "chlorine").isSome = true ∧
     (sget (receive_status p l dev data).sensors "chlorine_raw").isSome = true) ∧
    (data.length ≤ 1 →
      sget (receive_status p l dev data).sensors "temperature" = some (some 0) ∧
      sget (receive_status p l dev data).sensors "battery_voltage" = some (some 0) ∧
      sget (receive_status p l dev data).sensors "EC" = some none) :=
  ⟨rs_all_keys_present p l dev data, rs_short_zero p l dev data⟩

theorem blueconnect_c1_short_payload_total_witness :
    ([] : List ℕ).length < 11 ∧
    sget (receive_status pow10c log10c devFresh []).sensors "EC" = some none :=
  ⟨by decide,
   ((blueconnect_c1_short_payload_total pow10c log10c devFresh []
      (by decide)).2 (by decide)).2.2⟩

/-- C2 (code evaluated at the failing input): update_device constructs a
fresh BlueConnectGoDevice on every call, so the history buffers never carry
samples from one cycle into the next: a second cycle receiving a frame with
raw_ec = 1000 ends with salt_history equal to the single sample [256]
(whatever any earlier cycle appended) and its smoothed salt equal to that
one sample; structurally, every non-skip cycle runs the decoder against a
device whose histories are the empty defaults. -/
theorem blueconnect_c2_histories_reset :
    (update_device pow10c log10c "aa" false (some frameEc1000)).salt_history
      = [256] ∧
    sget (update_device pow10c log10c "aa" false
        (some frameEc1000)).sensors "salt" = some (some 256) ∧
    (update_device pow10c log10c "aa" false (some frameEc1000)).chlorine_history
      = [] ∧
    (∀ (p : ℚ → ℚ) (l : ℚ) (addr : String) (data : List ℕ),
      update_device p l addr false (some data)
        = receive_status p l { name := addr, address := addr } data) := by
  refine ⟨?_, ?_, ?_, fun p l addr data => rfl⟩ <;>
    norm_num +decide [update_device, receive_status, dictSet, sget, le16,
      bytesToNat, chlorineRangeCheck, chlorinePpm, log_chlorine_clamped,
      listMean, pushCap, max_history_len, pow10c, log10c, pyround, rhe,
      frameEc1000]

/-- C3: in every non-skip update cycle the transport is connected once and
disconnected exactly once, with the disconnect the final transport action
before the cycle returns, both when the notification arrives (Completed)
and when the 15-second wait times out (TimedOut; the TimeoutError is caught
and control falls through to the disconnect); a skip_query cycle performs
no transport action at all. -/
theorem blueconnect_c3_disconnect_once :
    ∀ o : NotifyOutcome,
      (update_device_trace false o).count TransportAction.disconnect = 1 ∧
      (update_device_trace false o).getLast? = some TransportAction.disconnect ∧
      (update_device_trace false o).count TransportAction.connect = 1 ∧
      update_device_trace true o = [] := by
  intro o
  cases o <;> decide

/-- C5: the chlorine range check discards values above 5 (None, not a clamp
to 5), clamps negative values to exactly 0.0, rounds all others to 3
decimals, and the chlorine_raw sensor entry is exactly the range check
applied to the computed chlorine_ppm. -/
theorem blueconnect_c5_chlorine_range_check :
    (∀ x : ℚ,
      (5 < x → chlorineRangeCheck x = none) ∧
      (x < 0 → chlorineRangeCheck x = some 0) ∧
      (¬ 5 < x → ¬ x < 0 → chlorineRangeCheck x = some (pyround 3 x))) ∧
    (∀ (p : ℚ → ℚ) (l : ℚ) (dev : BlueConnectGoDevice) (data : List ℕ),
      sget (receive_status p l dev data).sensors "chlorine_raw"
        = some (chlorineRangeCheck (chlorinePpmOf p l dev data))) := by
  constructor
  · intro x
    refine ⟨?_, ?_, ?_⟩
    · intro h
      simp [chlorineRangeCheck, h]
    · intro h
      have h5 : ¬ x > 5 := by linarith
      simp [chlorineRangeCheck, h, h5]
    · intro h1 h2
      simp [chlorineRangeCheck, h1, h2]
  · exact rs_chlorine_raw

theorem blueconnect_c5_witness :
    chlorineRangeCheck 6 = none ∧
    chlorineRangeCheck (-1) = some 0 ∧
    chlorineRangeCheck 2 = some (pyround 3 2) :=
  ⟨(blueconnect_c5_chlorine_range_check.1 6).1 (by norm_num),
   (blueconnect_c5_chlorine_range_check.1 (-1)).2.1 (by norm_num),
   (blueconnect_c5_chlorine_range_check.1 2).2.2 (by norm_num) (by norm_num)⟩

/-- C4: for every well-formed frame the decoder reads little-endian
unsigned 16-bit fields at the fixed offsets and applies the fixed formulas
temperature = raw/100.0, pH = (2048 - raw)/232.0 + 7.2, ORP = raw/4.0 - 5.0;
and on the scenario A frame the snapshot has temperature 10, pH 7.2, ORP 45,
EC 10000 and a battery value inside [0, 100] (the handler is a total
function, so no exception is raised). -/
theorem blueconnect_c4_fixed_formulas :
    (∀ (p : ℚ → ℚ) (l : ℚ) (dev : BlueConnectGoDevice) (data : List ℕ),
      11 ≤ data.length →
      sget (receive_status p l dev data).sensors "temperature"
        = some (some ((le16 data 1 : ℚ) / 100.0)) ∧
      sget (receive_status p l dev data).sensors "pH"
        = some (some (((2048 : ℚ) - (le16 data 3 : ℚ)) / 232.0 + 7.2)) ∧
      sget (receive_status p l dev data).sensors "ORP"
        = some (some ((le16 data 5 : ℚ) / 4.0 - 5.0))) ∧
    (∀ (p : ℚ → ℚ) (l : ℚ),
      sget (receive_status p l devFresh frameA).sensors "temperature"
        = some (some 10) ∧
      sget (receive_status p l devFresh frameA).sensors "pH"
        = some (some 7.2) ∧
      sget (receive_status p l devFresh frameA).sensors "ORP"
        = some (some 45) ∧
      sget (receive_status p l devFresh frameA).sensors "EC"
        = some (some 10000) ∧
      sget (receive_status p l devFresh frameA).sensors "battery"
        = some (some (514/10)) ∧
      (0 : ℚ) ≤ 514/10 ∧ (514/10 : ℚ) ≤ 100) := by
  constructor
  · intro p l dev data _
    exact ⟨rs_temperature p l dev data, rs_pH p l dev data, rs_ORP p l dev data⟩
  · intro p l
    have h1 : le16 frameA 1 = 1000 := by decide
    have h3 : le16 frameA 3 = 2048 := by decide
    have h5 : le16 frameA 5 = 200 := by decide
    have h7 : le16 frameA 7 = 10000 := by decide
    have h9 : le16 frameA 9 = 3232 := by decide
    refine ⟨?_, ?_, ?_, ?_, ?_, by norm_num, by norm_num⟩
    · rw [rs_temperature, h1]; norm_num
    · rw [rs_pH, h3]; norm_num
    · rw [rs_ORP, h5]; norm_num
    · rw [rs_EC, h7]; norm_num
    · rw [rs_battery, h9]; norm_num [pyround, rhe, min_def, max_def]

theorem blueconnect_c4_witness :
    11 ≤ frameA.length ∧
    sget (receive_status pow10c log10c devFresh frameA).sensors "temperature"
      = some (some ((le16 frameA 1 : ℚ) / 100.0)) :=
  ⟨by decide,
   (blueconnect_c4_fixed_formulas.1 pow10c log10c devFresh frameA (by decide)).1⟩

/-- C6: raw_ec = 0 makes EC, salt, salt_raw and salt_grams all the explicit
None marker; raw_ec ≠ 0 makes EC equal to raw_ec and all four keys carry a
(finite, rational) numeric value. -/
theorem blueconnect_c6_ec_gating (p : ℚ → ℚ) (l : ℚ)
    (dev : BlueConnectGoDevice) (data : List ℕ) :
    (le16 data 7 = 0 →
      sget (receive_status p l dev data).sensors "EC" = some none ∧
      sget (receive_status p l dev data).sensors "salt" = some none ∧
      sget (receive_status p l dev data).sensors "salt_raw" = some none ∧
      sget (receive_status p l dev data).sensors "salt_grams" = some none) ∧
    (le16 data 7 ≠ 0 →
      sget (receive_status p l dev data).sensors "EC"
        = some (some (le16 data 7 : ℚ)) ∧
      (∃ v : ℚ, sget (receive_status p l dev data).sensors "salt"
        = some (some v)) ∧
      (∃ v : ℚ, sget (receive_status p l dev data).sensors "salt_raw"
        = some (some v)) ∧
      (∃ v : ℚ, sget (receive_status p l dev data).sensors "salt_grams"
        = some (some v))) := by
  constructor
  · intro h
    refine ⟨?_, ?_, ?_, ?_⟩ <;>
      simp [rs_EC, rs_salt, rs_salt_raw, rs_salt_grams, h]
  · intro h
    refine ⟨by simp [rs_EC, h], ?_, ?_, ?_⟩
    · exact ⟨pyround 2 (listMean (pushCap (max_history_len * 2)
        dev.salt_history ((le16 data 7 : ℚ) * 0.256))), by simp [rs_salt, h]⟩
    · exact ⟨pyround 1 ((le16 data 7 : ℚ) * 0.256), by simp [rs_salt_raw, h]⟩
    · exact ⟨pyround 1 (listMean (pushCap (max_history_len * 2)
        dev.salt_history ((le16 data 7 : ℚ) * 0.256)) / 1000),
        by simp [rs_salt_grams, h]⟩

theorem blueconnect_c6_witness :
    sget (receive_status pow10c log10c devFresh []).sensors "EC" = some none ∧
    sget (receive_status pow10c log10c devFresh frameEc1).sensors "EC"
      = some (some 1) := by
  constructor
  · exact ((blueconnect_c6_ec_gating pow10c log10c devFresh []).1 (by decide)).1
  · have h := ((blueconnect_c6_ec_gating pow10c log10c devFresh frameEc1).2
      (by decide)).1
    rw [show le16 frameEc1 7 = 1 by decide] at h
    simpa using h

/-- The salt smoothing as the frozen claim words it (for comparison with the
source): the ROUNDED salt_raw = round(raw_ec × 0.256, 1) is appended to the
buffer of capacity 6 and salt is the mean of the result rounded to 2
decimals. -/
def salt_spec_smoothed (hist : List ℚ) (raw_ec : ℕ) : ℚ :=
  pyround 2 (listMean (pushCap (max_history_len * 2) hist
    (pyround 1 ((raw_ec : ℚ) * 0.256))))

/-- C7 (counterexample): on a frame with raw_ec = 1 and an empty history the
code computes salt = 0.26 (it appends the unrounded salt_ppm = 0.256 to the
buffer), while the claim, which appends the rounded salt_raw = 0.3, yields
0.3. -/
theorem blueconnect_c7_counterexample :
    sget (receive_status pow10c log10c devFresh frameEc1).sensors "salt"
      = some (some (13/50)) ∧
    salt_spec_smoothed [] 1 = 3/10 ∧
    (13/50 : ℚ) ≠ 3/10 := by
  refine ⟨?_, ?_, by norm_num⟩
  · norm_num +decide [receive_status, dictSet, sget, le16, bytesToNat,
      chlorineRangeCheck, chlorinePpm, log_chlorine_clamped, listMean, pushCap,
      max_history_len, pow10c, log10c, pyround, rhe, devFresh, frameEc1]
  · norm_num [salt_spec_smoothed, pyround, rhe, listMean, pushCap,
      max_history_len]

/-- C7 (amended): for every decoded frame with raw_ec ≠ 0, salt_raw is
raw_ec × 0.256 rounded to 1 decimal; the UNROUNDED salt_ppm = raw_ec × 0.256
is appended to the salt HistoryBuffer of capacity 6; salt is the mean of the
buffer contents after that append, rounded to 2 decimals; and salt_grams is
the unrounded mean divided by 1000, rounded to 1 decimal; the buffer never
grows beyond its capacity. -/
theorem blueconnect_c7_salt_pipeline (p : ℚ → ℚ) (l : ℚ)
    (dev : BlueConnectGoDevice) (data : List ℕ) (h : le16 data 7 ≠ 0) :
    sget (receive_status p l dev data).sensors "salt_raw"
      = some (some (pyround 1 ((le16 data 7 : ℚ) * 0.256))) ∧
    (receive_status p l dev data).salt_history
      = pushCap (max_history_len * 2) dev.salt_history
          ((le16 data 7 : ℚ) * 0.256) ∧
    sget (receive_status p l dev data).sensors "salt"
      = some (some (pyround 2
          (listMean ((receive_status p l dev data).salt_history)))) ∧
    sget (receive_status p l dev data).sensors "salt_grams"
      = some (some (pyround 1
          (listMean ((receive_status p l dev data).salt_history) / 1000))) ∧
    (dev.salt_history.length ≤ max_history_len * 2 →
      (receive_status p l dev data).salt_history.length ≤ max_history_len * 2) := by
  refine ⟨?_, ?_, ?_, ?_, ?_⟩
  · simp [rs_salt_raw, h]
  · simp [rs_salt_history, h]
  · simp [rs_salt, rs_salt_history, h]
  · simp [rs_salt_grams, rs_salt_history, h]
  · intro hl
    rw [rs_salt_history]
    simp only [h, if_neg, if_false]
    exact pushCap_length_le _ _ _ hl

theorem blueconnect_c7_salt_pipeline_witness :
    le16 frameEc1 7 ≠ 0 ∧
    sget (receive_status pow10c log10c devFresh frameEc1).sensors "salt_raw"
      = some (some (pyround 1 ((le16 frameEc1 7 : ℚ) * 0.256))) :=
  ⟨by decide,
   (blueconnect_c7_salt_pipeline pow10c log10c devFresh frameEc1 (by decide)).1⟩

/-- C8: battery_voltage is the raw little-endian field at bytes 9..11
unscaled; battery is ((raw - 2800) / (3640 - 2800)) × 100 clamped into
[0, 100] and rounded to 1 decimal, hence always within [0, 100]; at raw
2800 it is 0, at 3640 it is 100, at 3000 it is 23.8. -/
theorem blueconnect_c8_battery :
    (∀ (p : ℚ → ℚ) (l : ℚ) (dev : BlueConnectGoDevice) (data : List ℕ),
      sget (receive_status p l dev data).sensors "battery_voltage"
        = some (some (le16 data 9 : ℚ)) ∧
      sget (receive_status p l dev data).sensors "battery"
        = some (some (pyround 1 (max 0
            (min (((le16 data 9 : ℚ) - 2800) / ((3640 : ℚ) - 2800) * 100.0) 100)))) ∧
      0 ≤ pyround 1 (max 0
            (min (((le16 data 9 : ℚ) - 2800) / ((3640 : ℚ) - 2800) * 100.0) 100)) ∧
      pyround 1 (max 0
            (min (((le16 data 9 : ℚ) - 2800) / ((3640 : ℚ) - 2800) * 100.0) 100))
        ≤ 100) ∧
    sget (receive_status pow10c log10c devFresh (frameBatt 240 10)).sensors
      "battery" = some (some 0) ∧
    sget (receive_status pow10c log10c devFresh (frameBatt 56 14)).sensors
      "battery" = some (some 100) ∧
    sget (receive_status pow10c log10c devFresh (frameBatt 184 11)).sensors
      "battery" = some (some (238/10)) := by
  refine ⟨?_, ?_, ?_, ?_⟩
  · intro p l dev data
    set q : ℚ := ((le16 data 9 : ℚ) - 2800) / ((3640 : ℚ) - 2800) * 100.0 with hq
    have h0 : (0 : ℚ) ≤ max 0 (min q 100) := le_max_left _ _
    have h100 : max 0 (min q 100) ≤ 100 := max_le (by norm_num) (min_le_right _ _)
    refine ⟨rs_battery_voltage p l dev data, rs_battery p l dev data, ?_, ?_⟩
    · have hlo := le_pyround 1 0 (max 0 (min q 100)) (by push_cast; nlinarith)
      simpa using hlo
    · have hhi := pyround_le 1 1000 (max 0 (min q 100)) (by push_cast; nlinarith)
      have : ((1000 : ℤ) : ℚ) / 10 ^ 1 = 100 := by norm_num
      linarith [hhi, this.le, this.ge]
  all_goals
    norm_num +decide [receive_status, dictSet, sget, le16, bytesToNat,
      chlorineRangeCheck, chlorinePpm, log_chlorine_clamped, listMean, pushCap,
      max_history_len, pow10c, log10c, pyround, rhe, devFresh, frameBatt,
      min_def, max_def]

/-- C9: the notification handler is total over arbitrary payloads (it is a
total function of the byte list here, with no length check in the source):
for every byte sequence, including the empty one, all eleven sensor keys end
up present in the snapshot, each bound to a rational or to the explicit None
marker, and fields whose bytes are entirely missing decode as if the raw
value were 0 (temperature 0, battery_voltage 0, EC the None marker of the
raw_ec = 0 branch). -/
theorem blueconnect_c9_total_handler (p : ℚ → ℚ) (l : ℚ)
    (dev : BlueConnectGoDevice) (data : List ℕ) :
    ((sget (receive_status p l dev data).sensors "temperature").isSome = true ∧
     (sget (receive_status p l dev data).sensors "pH").isSome = true ∧
     (sget (receive_status p l dev data).sensors "ORP").isSome = true ∧
     (sget (receive_status p l dev data).sensors "EC").isSome = true ∧
     (sget (receive_status p l dev data).sensors "salt").isSome = true ∧
     (sget (receive_status p l dev data).sensors "salt_raw").isSome = true ∧
     (sget (receive_status p l dev data).sensors "salt_grams").isSome = true ∧
     (sget (receive_status p l dev data).sensors "battery").isSome = true ∧
     (sget (receive_status p l dev data).sensors "battery_voltage").isSome = true ∧
     (sget (receive_status p l dev data).sensors "chlorine").isSome = true ∧
     (sget (receive_status p l dev data).sensors "chlorine_raw").isSome = true) ∧
    (data.length ≤ 1 →
      sget (receive_status p l dev data).sensors "temperature" = some (some 0) ∧
      sget (receive_status p l dev data).sensors "battery_voltage" = some (some 0) ∧
      sget (receive_status p l dev data).sensors "EC" = some none) :=
  ⟨rs_all_keys_present p l dev data, rs_short_zero p l dev data⟩

theorem blueconnect_c9_witness :
    (sget (receive_status pow10c log10c devFresh []).sensors "chlorine").isSome
      = true ∧
    sget (receive_status pow10c log10c devFresh []).sensors "battery_voltage"
      = some (some 0) :=
  ⟨(blueconnect_c9_total_handler pow10c log10c devFresh []).1.2.2.2.2.2.2.2.2.2.1,
   ((blueconnect_c9_total_handler pow10c log10c devFresh []).2 (by decide)).2.1⟩

/-- C10: under the real bounds 10 ^ x ∈ [10⁻⁶, 1] for the clamped exponent
x ∈ [-6, 0] and a salinity factor of at least 0.7, the computed chlorine_ppm
is strictly positive (so the branch clamping a negative chlorine_ppm to 0.0
is unreachable), and whenever chlorine_raw carries a number that number is
strictly positive and at most 5. -/
theorem blueconnect_c10_chlorine_raw_positive (p : ℚ → ℚ) (l : ℚ)
    (dev : BlueConnectGoDevice) (data : List ℕ)
    (hp : ∀ x : ℚ, -6 ≤ x → x ≤ 0 → 1/1000000 ≤ p x ∧ p x ≤ 1) :
    0 < chlorinePpmOf p l dev data ∧
    ∀ v : ℚ,
      sget (receive_status p l dev data).sensors "chlorine_raw"
        = some (some v) →
      0 < v ∧ v ≤ 5 := by
  have hlow : 4963/200000 ≤ chlorinePpmOf p l dev data := by
    simp only [chlorinePpmOf]
    exact chlorinePpm_lower p l _ _ _ _ hp
  refine ⟨by linarith, ?_⟩
  intro v hv
  rw [rs_chlorine_raw] at hv
  have hv' : chlorineRangeCheck (chlorinePpmOf p l dev data) = some v :=
    Option.some.inj hv
  set X := chlorinePpmOf p l dev data with hX
  unfold chlorineRangeCheck at hv'
  split_ifs at hv' with h5 hneg
  · exfalso
    linarith
  · have hveq : v = pyround 3 X := (Option.some.inj hv').symm
    subst hveq
    constructor
    · have h24 : ((24 : ℤ) : ℚ) ≤ X * 10 ^ 3 := by push_cast; nlinarith
      have := le_pyround 3 24 X h24
      have hpos : (0 : ℚ) < ((24 : ℤ) : ℚ) / 10 ^ 3 := by norm_num
      linarith
    · have hX5 : X ≤ 5 := by linarith
      have h5000 : X * 10 ^ 3 ≤ ((5000 : ℤ) : ℚ) := by push_cast; nlinarith
      have := pyround_le 3 5000 X h5000
      have : ((5000 : ℤ) : ℚ) / 10 ^ 3 = 5 := by norm_num
      linarith [pyround_le 3 5000 X h5000, this.le, this.ge]

theorem blueconnect_c10_witness :
    sget (receive_status (fun _ => 1/1000000) log10c devFresh []).sensors
      "chlorine_raw" = some (some (7/200)) ∧
    (0 : ℚ) < 7/200 ∧ (7/200 : ℚ) ≤ 5 := by
  have heval : sget (receive_status (fun _ => 1/1000000) log10c devFresh []).sensors
      "chlorine_raw" = some (some (7/200)) := by
    norm_num +decide [receive_status, dictSet, sget, le16, bytesToNat,
      chlorineRangeCheck, chlorinePpm, listMean, pushCap,
      max_history_len, log10c, pyround, rhe, devFresh]
  exact ⟨heval,
    (blueconnect_c10_chlorine_raw_positive (fun _ => 1/1000000) log10c devFresh []
      (fun _ _ _ => by norm_num)).2 (7/200) heval⟩
